import Mathlib

/-!
Shallow embedding of the chat, dashboard and structured-data display logic of
the ai-research-assistant frontend (App.jsx, DashboardPage.jsx,
AgentDashboard.jsx, StructuredDataDisplay.jsx).

Strings are modelled by Lean String; JS objects by structures with Option
fields; a fetch/stream interaction is modelled by a parameter describing the
outcome the network produced, and each handler is a pure function from the
component state and that outcome to the new state together with the list of
network requests it issued.
-/

namespace AIRA

/-! ### Chat messages and application state (App.jsx) -/

inductive Sender
  | user
  | ai
  deriving DecidableEq

structure Message where
  sender : Sender
  text : String
  deriving DecidableEq

structure Doc where
  id : Nat
  filename : String
  status : String
  deriving DecidableEq

/-- Network requests handleSendMessage can issue (POST /chat or POST /chat/multi). -/
inductive Request
  | chatSingle (docId : Nat) (question : String)
  | chatMulti (docIds : List Nat) (question : String)
  deriving DecidableEq

/-- The pieces of App state that handleSendMessage can read or write. -/
structure AppState where
  token : Option String
  selectedDocument : Option Doc
  multiChatDocs : List Doc
  chatHistory : List Message
  isAnswering : Bool
  pdfUrl : Option String
  citations : List String
  currentMultiViewDocId : Option Nat
  deriving DecidableEq

/-- Outcome of the fetch + stream interaction inside handleSendMessage:
either the response was not ok / had no body (throw before the read loop),
or the read loop consumed some fragments and then the stream erred,
or the stream completed after emitting the given fragments in order. -/
inductive StreamOutcome
  | success (frags : List String)
  | earlyFail (errMsg : String)
  | midFail (frags : List String) (errMsg : String)
  deriving DecidableEq

/-- The setChatHistory updater run for one decoded chunk: if the last message
is an AI message, replace it by the same message with the chunk appended to
its text; otherwise leave the history unchanged (App.jsx lines 160-167). -/
def appendChunk (prev : List Message) (chunk : String) : List Message :=
  match prev.getLast? with
  | some lastMessage =>
      if lastMessage.sender = Sender.ai then
        prev.dropLast ++ [{ lastMessage with text := lastMessage.text ++ chunk }]
      else prev
  | none => prev

/-- The setChatHistory updater run in the catch block: if the last message is
an AI message, replace its text by the error string built from the caught
message (App.jsx lines 170-177). Note the text is overwritten, not extended. -/
def setErrorText (prev : List Message) (errMsg : String) : List Message :=
  match prev.getLast? with
  | some lastMessage =>
      if lastMessage.sender = Sender.ai then
        prev.dropLast ++
          [{ lastMessage with text := "Sorry, an error occurred: " ++ errMsg }]
      else prev
  | none => prev

/-- handleSendMessage (App.jsx lines 127-181): guard, then push the user
message and an empty AI placeholder, issue the chat request, and fold the
stream outcome into the history; finally isAnswering is reset to false. -/
def handleSendMessage (s : AppState) (question : String) (outcome : StreamOutcome) :
    AppState × List Request :=
  let isMultiChat : Bool := decide (s.multiChatDocs.length > 0)
  if !s.selectedDocument.isSome && !isMultiChat then (s, [])
  else
    let hist0 := s.chatHistory ++ [⟨Sender.user, question⟩, ⟨Sender.ai, ""⟩]
    let req : Request :=
      if isMultiChat then Request.chatMulti (s.multiChatDocs.map Doc.id) question
      else Request.chatSingle ((s.selectedDocument.map Doc.id).getD 0) question
    let finalHist :=
      match outcome with
      | StreamOutcome.success frags => frags.foldl appendChunk hist0
      | StreamOutcome.earlyFail errMsg => setErrorText hist0 errMsg
      | StreamOutcome.midFail frags errMsg =>
          setErrorText (frags.foldl appendChunk hist0) errMsg
    ({ s with chatHistory := finalHist, isAnswering := false }, [req])

/-- Concatenation of a fragment list in emission order. -/
def concatAll : List String → String
  | [] => ""
  | frag :: rest => frag ++ concatAll rest

/-- Text of the last message of a history (empty when the history is empty). -/
def lastText (hist : List Message) : String :=
  (hist.getLast?.map Message.text).getD ""

/-- A concrete single-document chat state used to evaluate the handlers. -/
def exDoc : Doc :=
  { id := 1, filename := "paper.pdf", status := "COMPLETED" }

def exState : AppState :=
  { token := some "t", selectedDocument := some exDoc, multiChatDocs := [],
    chatHistory := [], isAnswering := false, pdfUrl := none,
    citations := [], currentMultiViewDocId := none }

/-! ### Document dashboard polling (DashboardPage.jsx) -/

structure DashDoc where
  id : Nat
  filename : String
  status : String
  upload_date : String
  deriving DecidableEq

/-- The single action the polling interval performs. -/
inductive DashAction
  | fetchDocuments
  deriving DecidableEq

/-- An installed setInterval timer: its period and the action it repeats. -/
structure IntervalSpec where
  periodMs : Nat
  action : DashAction
  deriving DecidableEq

/-- documents.some on status PROCESSING (DashboardPage.jsx line 53). -/
def hasProcessingDocuments (documents : List DashDoc) : Bool :=
  documents.any (fun doc => doc.status == "PROCESSING")

/-- Body of the effect with dependency [documents] (lines 52-62): install a
3000 ms fetchDocuments interval when some document is PROCESSING, none
otherwise; its cleanup clears the interval it installed. -/
def pollingEffect (documents : List DashDoc) : Option IntervalSpec :=
  if hasProcessingDocuments documents then
    some { periodMs := 3000, action := DashAction.fetchDocuments }
  else none

/-- React lifecycle for one change of the documents list: the cleanup of the
previous effect run clears whatever interval it had installed, then the
effect runs again on the new list; the interval active afterwards is exactly
what the new run installs. -/
def applyDocumentsChange (_previous : Option IntervalSpec)
    (documents : List DashDoc) : Option IntervalSpec :=
  pollingEffect documents

/-! ### Literature review agent dashboard (AgentDashboard.jsx) -/

structure Review where
  id : Nat
  topic : String
  status : String
  result : String
  deriving DecidableEq

/-- The statusMap object lookup (AgentDashboard.jsx lines 70-76): defined on
the five non-COMPLETED statuses, undefined elsewhere. -/
def statusMap (status : String) : Option String :=
  if status == "PENDING" then some "Agent is starting..."
  else if status == "SEARCHING" then some "Searching for relevant papers on arXiv..."
  else if status == "SUMMARIZING" then some "Downloading and summarizing selected papers..."
  else if status == "SYNTHESIZING" then some "Synthesizing the final literature review..."
  else if status == "FAILED" then some "The agent encountered an error."
  else none

/-- renderStatus (lines 67-86): no banner without a review or at COMPLETED,
otherwise the mapped status message with fallback text. -/
def renderStatus (activeReview : Option Review) : Option String :=
  match activeReview with
  | none => none
  | some r =>
      if r.status == "COMPLETED" then none
      else some ((statusMap r.status).getD "Processing...")

/-- What renderResult shows when it shows anything: topic and result text. -/
structure ResultView where
  topic : String
  result : String
  deriving DecidableEq

/-- renderResult (lines 88-97): the result block only at COMPLETED. -/
def renderResult (activeReview : Option Review) : Option ResultView :=
  match activeReview with
  | none => none
  | some r =>
      if r.status == "COMPLETED" then some { topic := r.topic, result := r.result }
      else none

/-- Requests AgentDashboard can issue: the GET of the active review on
mount, and the POST that starts a new review. -/
inductive AgentRequest
  | getActiveReview
  | startReview (topic : String)
  deriving DecidableEq

/-- Outcome of the fetch inside checkForActiveReview: an ok response whose
JSON body is a review or null, a non-ok response, or a thrown network error. -/
inductive FetchOutcome
  | ok (body : Option Review)
  | httpError
  | networkError
  deriving DecidableEq

/-- checkForActiveReview (AgentDashboard.jsx lines 15-35), run once on mount
with activeReview initially null: returns the activeReview state after the
check, the isChecking flag after the check, and the requests issued. -/
def checkForActiveReview (outcome : FetchOutcome) :
    Option Review × Bool × List AgentRequest :=
  match outcome with
  | FetchOutcome.ok (some r) => (some r, false, [AgentRequest.getActiveReview])
  | FetchOutcome.ok none => (none, false, [AgentRequest.getActiveReview])
  | FetchOutcome.httpError => (none, false, [AgentRequest.getActiveReview])
  | FetchOutcome.networkError => (none, false, [AgentRequest.getActiveReview])

/-- JS string-to-boolean coercion on topic.trim(): the trimmed characters,
empty exactly when the trimmed string is falsy. -/
def jsTrim (topic : String) : List Char :=
  ((topic.data.dropWhile Char.isWhitespace).reverse.dropWhile Char.isWhitespace).reverse

/-- The disabled expression of the topic input (line 119). -/
def topicInputDisabled (isLoading : Bool) (activeReview : Option Review) : Bool :=
  isLoading ||
    (match activeReview with
     | some r => r.status != "COMPLETED" && r.status != "FAILED"
     | none => false)

/-- The disabled expression of the Start Review submit button (line 123). -/
def startButtonDisabled (isLoading : Bool) (topic : String)
    (activeReview : Option Review) : Bool :=
  isLoading || (jsTrim topic).isEmpty ||
    (match activeReview with
     | some r => r.status != "COMPLETED" && r.status != "FAILED"
     | none => false)

/-- A concrete review used to evaluate the agent dashboard functions. -/
def exReview : Review :=
  { id := 7, topic := "transformers", status := "SEARCHING", result := "" }

/-! ### Structured data display (StructuredDataDisplay.jsx) -/

/-- A structured_data JS object: the four recognised keys, each present or
absent, plus the count of any other keys it carries. -/
structure JsStructuredData where
  error : Option String
  methodology : Option String
  dataset : Option String
  key_findings : Option (List String)
  extraKeyCount : Nat
  deriving DecidableEq

def countKey {α : Type} (field : Option α) : Nat :=
  if field.isSome then 1 else 0

/-- Object.keys(data).length for the modelled object. -/
def numKeys (d : JsStructuredData) : Nat :=
  countKey d.error + countKey d.methodology + countKey d.dataset +
    countKey d.key_findings + d.extraKeyCount

/-- JS truthiness of an optional string field: present and non-empty. -/
def truthyStr (field : Option String) : Bool :=
  match field with
  | some s => s != ""
  | none => false

/-- What the insights panel shows: each field is present in the output
exactly when the component renders its block. -/
structure InsightsView where
  methodology : Option String
  dataset : Option String
  key_findings : Option (List String)
  deriving DecidableEq

/-- StructuredDataDisplay (StructuredDataDisplay.jsx lines 4-41): null when
data is absent, has no keys, or data.error is truthy; otherwise the panel
with exactly the truthy methodology and dataset blocks and the non-empty
key_findings list. -/
def StructuredDataDisplay (data : Option JsStructuredData) : Option InsightsView :=
  match data with
  | none => none
  | some d =>
      if numKeys d == 0 || truthyStr d.error then none
      else
        some
          { methodology := if truthyStr d.methodology then d.methodology else none
            dataset := if truthyStr d.dataset then d.dataset else none
            key_findings :=
              match d.key_findings with
              | some l => if l.length > 0 then some l else none
              | none => none }

/-- A structured_data object holding an error key with an empty value next
to a methodology entry. -/
def errKeyEmptyData : JsStructuredData :=
  { error := some "", methodology := some "Survey", dataset := none,
    key_findings := none, extraKeyCount := 0 }

/-- The chat state with no selected document and no multi-chat documents. -/
def exStateNoDocs : AppState :=
  { exState with selectedDocument := none }

/-- A listed document currently being ingested. -/
def exProcessingDoc : DashDoc :=
  { id := 1, filename := "a.pdf", status := "PROCESSING",
    upload_date := "2024-01-01" }

/-- A structured_data object with all three display fields present and
non-empty and no error key. -/
def exGoodData : JsStructuredData :=
  { error := none, methodology := some "Survey", dataset := some "MNIST",
    key_findings := some ["finding"], extraKeyCount := 0 }

/-- The insights panel exGoodData renders. -/
def exGoodView : InsightsView :=
  { methodology := some "Survey", dataset := some "MNIST",
    key_findings := some ["finding"] }

/-! ### Helper lemmas -/

theorem string_nil_append (s : String) : "" ++ s = s := by
  cases s
  rfl

theorem appendChunk_concat (hist : List Message) (m : Message) (chunk : String)
    (hm : m.sender = Sender.ai) :
    appendChunk (hist ++ [m]) chunk
      = hist ++ [{ m with text := m.text ++ chunk }] := by
  unfold appendChunk
  rw [List.getLast?_concat]
  simp [hm, List.dropLast_concat]

theorem foldl_appendChunk (frags : List String) (hist : List Message)
    (m : Message) (hm : m.sender = Sender.ai) :
    List.foldl appendChunk (hist ++ [m]) frags
      = hist ++ [{ m with text := m.text ++ concatAll frags }] := by
  induction frags generalizing m with
  | nil => simp [concatAll]
  | cons f fs ih =>
      rw [List.foldl_cons, appendChunk_concat hist m f hm]
      rw [ih { m with text := m.text ++ f } hm]
      simp [concatAll, String.append_assoc]

theorem setErrorText_concat (hist : List Message) (m : Message)
    (errMsg : String) (hm : m.sender = Sender.ai) :
    setErrorText (hist ++ [m]) errMsg
      = hist ++ [{ m with text := "Sorry, an error occurred: " ++ errMsg }] := by
  unfold setErrorText
  rw [List.getLast?_concat]
  simp [hm, List.dropLast_concat]

theorem truthyStr_eq_true_iff (field : Option String) :
    truthyStr field = true ↔ ∃ s, field = some s ∧ s ≠ "" := by
  cases field <;> simp [truthyStr]

theorem guard_false (s : AppState)
    (hguard : s.selectedDocument.isSome = true ∨ s.multiChatDocs ≠ []) :
    (!s.selectedDocument.isSome && !(decide (s.multiChatDocs.length > 0))) = false := by
  rcases hguard with h | h
  · simp [h]
  · simp [List.length_pos.mpr h]

/-! ### Claim theorems -/

/-- C9: when no document is selected and the multi-chat list is empty,
handleSendMessage returns immediately: the application state is unchanged
and no network request is issued. -/
theorem sendMessage_no_docs_noop (s : AppState) (question : String)
    (outcome : StreamOutcome) (h1 : s.selectedDocument = none)
    (h2 : s.multiChatDocs = []) :
    handleSendMessage s question outcome = (s, []) := by
  simp [handleSendMessage, h1, h2]

theorem sendMessage_no_docs_noop_witness :
    handleSendMessage exStateNoDocs "q" (StreamOutcome.success ["x"])
      = (exStateNoDocs, []) :=
  sendMessage_no_docs_noop exStateNoDocs "q" (StreamOutcome.success ["x"]) rfl rfl

/-- C4: when the stream completes without error, each fragment is appended
to the trailing AI message as it is read (the history after any number of
read iterations carries the concatenation of the fragments read so far), and
the final AI message text is the concatenation of all fragments in emission
order after the user message, with earlier history untouched. -/
theorem chat_stream_success_concat (s : AppState) (question : String)
    (frags : List String)
    (hguard : s.selectedDocument.isSome = true ∨ s.multiChatDocs ≠ []) :
    (handleSendMessage s question (StreamOutcome.success frags)).1.chatHistory
        = s.chatHistory ++ [⟨Sender.user, question⟩, ⟨Sender.ai, concatAll frags⟩]
    ∧ ∀ i : Nat,
        List.foldl appendChunk
            (s.chatHistory ++ [⟨Sender.user, question⟩, ⟨Sender.ai, ""⟩])
            (frags.take i)
          = s.chatHistory ++
              [⟨Sender.user, question⟩, ⟨Sender.ai, concatAll (frags.take i)⟩] := by
  have hfold : ∀ gs : List String,
      List.foldl appendChunk
          (s.chatHistory ++ [⟨Sender.user, question⟩, ⟨Sender.ai, ""⟩]) gs
        = s.chatHistory ++ [⟨Sender.user, question⟩, ⟨Sender.ai, concatAll gs⟩] := by
    intro gs
    have h := foldl_appendChunk gs (s.chatHistory ++ [⟨Sender.user, question⟩])
        (⟨Sender.ai, ""⟩ : Message) rfl
    simpa [string_nil_append] using h
  refine ⟨?_, fun i => hfold (frags.take i)⟩
  have hc := guard_false s hguard
  simp only [handleSendMessage, hc, Bool.false_eq_true, if_false]
  exact hfold frags

theorem chat_stream_success_concat_witness :
    (handleSendMessage exState "hi" (StreamOutcome.success ["a", "b"])).1.chatHistory
      = exState.chatHistory ++
          [⟨Sender.user, "hi"⟩, ⟨Sender.ai, concatAll ["a", "b"]⟩] :=
  (chat_stream_success_concat exState "hi" ["a", "b"] (Or.inl rfl)).1

/-- C8: when the call fails before any fragment is produced (non-ok response
or missing body), the empty AI placeholder becomes a single error message
and the user message and all earlier history entries are unchanged. -/
theorem chat_early_fail_single_error (s : AppState) (question errMsg : String)
    (hguard : s.selectedDocument.isSome = true ∨ s.multiChatDocs ≠ []) :
    (handleSendMessage s question (StreamOutcome.earlyFail errMsg)).1.chatHistory
      = s.chatHistory ++ [⟨Sender.user, question⟩,
          ⟨Sender.ai, "Sorry, an error occurred: " ++ errMsg⟩] := by
  have hc := guard_false s hguard
  simp only [handleSendMessage, hc, Bool.false_eq_true, if_false]
  have h := setErrorText_concat (s.chatHistory ++ [⟨Sender.user, question⟩])
      (⟨Sender.ai, ""⟩ : Message) errMsg rfl
  simpa using h

theorem chat_early_fail_single_error_witness :
    (handleSendMessage exState "q" (StreamOutcome.earlyFail "HTTP error! Status: 500")).1.chatHistory
      = exState.chatHistory ++ [⟨Sender.user, "q"⟩,
          ⟨Sender.ai, "Sorry, an error occurred: " ++ "HTTP error! Status: 500"⟩] :=
  chat_early_fail_single_error exState "q" "HTTP error! Status: 500" (Or.inl rfl)

/-- C1 counterexample: the stream emits the fragment Hello and then fails;
the displayed AI message text is the error message alone, whose first five
characters are not those of the emitted fragment, so the text is not the

already-emitted fragments followed by an error fragment. -/
theorem chat_mid_fail_counterexample :
    lastText (handleSendMessage exState "q"
        (StreamOutcome.midFail ["Hello"] "boom")).1.chatHistory
      = "Sorry, an error occurred: boom"
    ∧ (lastText (handleSendMessage exState "q"
        (StreamOutcome.midFail ["Hello"] "boom")).1.chatHistory).data.take 5
        ≠ "Hello".data := by
  constructor
  · rfl
  · decide

/-- C1 amended: when the stream fails after emitting fragments, the catch
handler overwrites the trailing AI message text with the error message alone
(the already-emitted fragments are replaced, not kept); the user message and
all earlier history entries are unchanged. -/
theorem chat_mid_fail_replaces (s : AppState) (question errMsg : String)
    (frags : List String)
    (hguard : s.selectedDocument.isSome = true ∨ s.multiChatDocs ≠ []) :
    (handleSendMessage s question (StreamOutcome.midFail frags errMsg)).1.chatHistory
      = s.chatHistory ++ [⟨Sender.user, question⟩,
          ⟨Sender.ai, "Sorry, an error occurred: " ++ errMsg⟩] := by
  have hc := guard_false s hguard
  simp only [handleSendMessage, hc, Bool.false_eq_true, if_false]
  have hf := foldl_appendChunk frags (s.chatHistory ++ [⟨Sender.user, question⟩])
      (⟨Sender.ai, ""⟩ : Message) rfl
  have hs := setErrorText_concat (s.chatHistory ++ [⟨Sender.user, question⟩])
      (⟨Sender.ai, "" ++ concatAll frags⟩ : Message) errMsg rfl
  rw [show s.chatHistory ++ [(⟨Sender.user, question⟩ : Message), ⟨Sender.ai, ""⟩]
        = (s.chatHistory ++ [⟨Sender.user, question⟩]) ++ [⟨Sender.ai, ""⟩] by
      simp]
  rw [hf, hs]
  simp

theorem chat_mid_fail_replaces_witness :
    (handleSendMessage exState "q" (StreamOutcome.midFail ["Hello"] "boom")).1.chatHistory
      = exState.chatHistory ++ [⟨Sender.user, "q"⟩,
          ⟨Sender.ai, "Sorry, an error occurred: " ++ "boom"⟩] :=
  chat_mid_fail_replaces exState "q" "boom" ["Hello"] (Or.inl rfl)

/-- C2: after any change of the documents list, the polling interval
installed by the dashboard effect is the 3000 ms fetchDocuments timer
exactly when some listed document has status PROCESSING; when none has,
whatever interval existed is cleared and none is installed. -/
theorem dashboard_polling (previous : Option IntervalSpec)
    (documents : List DashDoc) :
    (hasProcessingDocuments documents = true →
        applyDocumentsChange previous documents
          = some { periodMs := 3000, action := DashAction.fetchDocuments })
    ∧ (hasProcessingDocuments documents = false →
        applyDocumentsChange previous documents = none) := by
  constructor <;> intro h <;> simp [applyDocumentsChange, pollingEffect, h]

theorem dashboard_polling_witness :
    applyDocumentsChange none [exProcessingDoc]
      = some { periodMs := 3000, action := DashAction.fetchDocuments } :=
  (dashboard_polling none [exProcessingDoc]).1 (by decide)

/-- C3: the review result block is rendered exactly when the status is
COMPLETED (and then the status banner is absent); at each of PENDING,
SEARCHING, SUMMARIZING, SYNTHESIZING and FAILED a status message is
rendered and the result block is absent. -/
theorem agent_result_iff_completed (r : Review) :
    ((renderResult (some r)).isSome = true ↔ r.status = "COMPLETED")
    ∧ (r.status = "COMPLETED" →
        renderResult (some r) = some { topic := r.topic, result := r.result }
          ∧ renderStatus (some r) = none)
    ∧ (r.status ∈ (["PENDING", "SEARCHING", "SUMMARIZING", "SYNTHESIZING",
          "FAILED"] : List String) →
        renderResult (some r) = none ∧ (renderStatus (some r)).isSome = true) := by
  refine ⟨?_, ?_, ?_⟩
  · by_cases h : r.status = "COMPLETED" <;> simp [renderResult, h]
  · intro h
    simp [renderResult, renderStatus, h]
  · intro h
    have hne : r.status ≠ "COMPLETED" := by
      simp only [List.mem_cons, List.not_mem_nil, or_false] at h
      rcases h with h | h | h | h | h <;> (rw [h]; decide)
    simp [renderResult, renderStatus, hne]

theorem agent_result_iff_completed_witness :
    renderResult (some exReview) = none
      ∧ (renderStatus (some exReview)).isSome = true :=
  (agent_result_iff_completed exReview).2.2 (by decide)

/-- C5: on mount the dashboard issues exactly one active-review query and no
start-review request; a review returned by an ok response is adopted as the
displayed active review, and in every other outcome no review is displayed. -/
theorem mount_check_resumes (outcome : FetchOutcome) :
    (checkForActiveReview outcome).2.2 = [AgentRequest.getActiveReview]
    ∧ (∀ topic, AgentRequest.startReview topic ∉ (checkForActiveReview outcome).2.2)
    ∧ (∀ r, outcome = FetchOutcome.ok (some r) →
        (checkForActiveReview outcome).1 = some r)
    ∧ ((∀ r, outcome ≠ FetchOutcome.ok (some r)) →
        (checkForActiveReview outcome).1 = none) := by
  have hreq : (checkForActiveReview outcome).2.2 = [AgentRequest.getActiveReview] := by
    cases outcome with
    | ok body => cases body <;> rfl
    | httpError => rfl
    | networkError => rfl
  refine ⟨hreq, ?_, ?_, ?_⟩
  · intro topic hmem
    rw [hreq] at hmem
    simp at hmem
  · intro r h
    rw [h]
    rfl
  · intro h
    cases outcome with
    | ok body =>
        cases body with
        | some r => exact absurd rfl (h r)
        | none => rfl
    | httpError => rfl
    | networkError => rfl

theorem mount_check_resumes_witness :
    (checkForActiveReview (FetchOutcome.ok (some exReview))).1 = some exReview :=
  (mount_check_resumes (FetchOutcome.ok (some exReview))).2.2.1 exReview rfl

/-- C6: whenever the displayed active review has a status that is neither
COMPLETED nor FAILED, both the topic input and the Start Review submit
button are disabled, for every loading flag and topic text. -/
theorem nonterminal_review_disables_start (isLoading : Bool) (topic : String)
    (r : Review) (h1 : r.status ≠ "COMPLETED") (h2 : r.status ≠ "FAILED") :
    topicInputDisabled isLoading (some r) = true
    ∧ startButtonDisabled isLoading topic (some r) = true := by
  have hb1 : (r.status != "COMPLETED") = true := by simp [h1]
  have hb2 : (r.status != "FAILED") = true := by simp [h2]
  constructor
  · simp [topicInputDisabled, hb1, hb2]
  · simp [startButtonDisabled, hb1, hb2]

theorem nonterminal_review_disables_start_witness :
    topicInputDisabled false (some exReview) = true
    ∧ startButtonDisabled false "" (some exReview) = true :=
  nonterminal_review_disables_start false "" exReview (by decide) (by decide)

/-- C7 counterexample: a structured_data object whose error key holds the
empty string is not rendered as nothing; the component falls through and
renders the insights panel with the methodology block. -/
theorem structured_error_key_counterexample :
    StructuredDataDisplay (some errKeyEmptyData)
        = some { methodology := some "Survey", dataset := none,
                 key_findings := none }
    ∧ StructuredDataDisplay (some errKeyEmptyData) ≠ none := by
  constructor
  · rfl
  · decide

/-- C7 amended: the display renders nothing exactly when data is absent, has
no keys, or carries an error key with a truthy (non-empty) value; when it
renders, a field block appears exactly for the display fields that are
present and non-empty. -/
theorem structured_display_amended (d : JsStructuredData) :
    (StructuredDataDisplay none = none)
    ∧ (StructuredDataDisplay (some d) = none ↔
        numKeys d = 0 ∨ truthyStr d.error = true)
    ∧ (∀ v, StructuredDataDisplay (some d) = some v →
        (∀ m, v.methodology = some m → d.methodology = some m ∧ m ≠ "")
        ∧ (∀ m, d.methodology = some m → m ≠ "" → v.methodology = some m)
        ∧ (∀ t, v.dataset = some t → d.dataset = some t ∧ t ≠ "")
        ∧ (∀ t, d.dataset = some t → t ≠ "" → v.dataset = some t)
        ∧ (∀ l, v.key_findings = some l → d.key_findings = some l ∧ l ≠ [])
        ∧ (∀ l, d.key_findings = some l → l ≠ [] → v.key_findings = some l)) := by
  refine ⟨rfl, ?_, ?_⟩
  · simp only [StructuredDataDisplay]
    by_cases hc : (numKeys d == 0 || truthyStr d.error) = true
    · rw [if_pos hc]
      constructor
      · intro _
        simpa [Bool.or_eq_true, beq_iff_eq] using hc
      · intro _
        rfl
    · rw [if_neg hc]
      constructor
      · intro h
        exact absurd h (by simp)
      · intro h
        exact absurd (by simpa [Bool.or_eq_true, beq_iff_eq] using h) hc
  · intro v hv
    simp only [StructuredDataDisplay] at hv
    by_cases hc : (numKeys d == 0 || truthyStr d.error) = true
    · rw [if_pos hc] at hv
      exact Option.noConfusion hv
    · rw [if_neg hc] at hv
      injection hv with hv
      subst hv
      refine ⟨?_, ?_, ?_, ?_, ?_, ?_⟩
      · intro m hm
        dsimp only at hm
        by_cases ht : truthyStr d.methodology = true
        · rw [if_pos ht] at hm
          rcases (truthyStr_eq_true_iff d.methodology).mp ht with ⟨s, hs, hsne⟩
          rw [hs] at hm
          injection hm with hm
          subst hm
          exact ⟨hs, hsne⟩
        · rw [if_neg ht] at hm
          exact Option.noConfusion hm
      · intro m hm hmne
        dsimp only
        have ht : truthyStr d.methodology = true :=
          (truthyStr_eq_true_iff d.methodology).mpr ⟨m, hm, hmne⟩
        rw [if_pos ht]
        exact hm
      · intro t ht
        dsimp only at ht
        by_cases htr : truthyStr d.dataset = true
        · rw [if_pos htr] at ht
          rcases (truthyStr_eq_true_iff d.dataset).mp htr with ⟨s, hs, hsne⟩
          rw [hs] at ht
          injection ht with ht
          subst ht
          exact ⟨hs, hsne⟩
        · rw [if_neg htr] at ht
          exact Option.noConfusion ht
      · intro t ht htne
        dsimp only
        have htr : truthyStr d.dataset = true :=
          (truthyStr_eq_true_iff d.dataset).mpr ⟨t, ht, htne⟩
        rw [if_pos htr]
        exact ht
      · intro l hl
        dsimp only at hl
        cases hkf : d.key_findings with
        | none =>
            rw [hkf] at hl
            exact Option.noConfusion hl
        | some l2 =>
            rw [hkf] at hl
            dsimp only at hl
            by_cases hlen : l2.length > 0
            · rw [if_pos hlen] at hl
              injection hl with hl
              subst hl
              refine ⟨rfl, ?_⟩
              intro hnil
              rw [hnil] at hlen
              simp at hlen
            · rw [if_neg hlen] at hl
              exact Option.noConfusion hl
      · intro l hl hlne
        dsimp only
        rw [hl]
        dsimp only
        rw [if_pos (List.length_pos.mpr hlne)]

theorem structured_display_amended_witness :
    exGoodView.methodology = some "Survey" :=
  (((structured_display_amended exGoodData).2.2 exGoodView (by rfl)).2.1)
    "Survey" rfl (by decide)

end AIRA
